import Mathlib

/-
Shallow embedding of `src/crates/engine-vimshottari/validate_agent35.py`.

The script reads `src/wisdom_data.rs`, extracts planet descriptions with the
regex `VedicPlanet::(\w+),\s+PlanetaryPeriodQualities\s+{.*?description:\s+"([^"]+)"`
(DOTALL), builds a per-planet table with word counts, checks the nine expected
planets, counts list items in the Sun section, inspects `src/witness.rs`
(catching only FileNotFoundError), and prints a report with a final verdict.

Text is modelled as `List Char`.  The regex pieces used by the script are
simple enough that backtracking is determinate:
* `(\w+),` — a maximal word-character run must be followed by `,` (a shorter
  run would put a word character where `,` is expected);
* `\s+X` for a non-whitespace literal `X` — maximal whitespace run;
* `([^"]+)"` — maximal run of non-quote characters;
* `.*?` (DOTALL) before a literal — the earliest position where the tail
  matches.
`\w` and `\s` are modelled by their ASCII meaning (the data the script
targets is ASCII identifiers and whitespace).
-/

set_option maxRecDepth 20000

namespace ValidateAgent35

abbrev Chars := List Char

def isWordChar (c : Char) : Bool := c.isAlphanum || c = '_'

/-- Strip a literal prefix, returning the remainder on success. -/
def dropLit (pat l : Chars) : Option Chars :=
  if pat.isPrefixOf l then some (l.drop pat.length) else none

/-- Python `desc.split()`: split on whitespace runs, dropping empty pieces.
The accumulator holds the current word, reversed. -/
def wordsAux : Chars → Chars → List Chars
  | [], acc => if acc.isEmpty then [] else [acc.reverse]
  | c :: rest, acc =>
    if c.isWhitespace then
      if acc.isEmpty then wordsAux rest [] else acc.reverse :: wordsAux rest []
    else wordsAux rest (c :: acc)

/-- Word count, `len(desc.split())`, from line 29. -/
def wordCount (s : String) : Nat := (wordsAux s.data []).length

/-- The dict built at lines 30–34: description, word_count, valid. -/
structure DescData where
  description : String
  word_count : Nat
  valid : Bool
deriving DecidableEq

def mkDescData (desc : String) : DescData :=
  let wc := wordCount desc
  { description := desc, word_count := wc, valid := decide (wc > 50) }

/-- Tail of the planet regex: `description:` then `\s+` then `"` then a
nonempty run of non-quote characters, then `"`.  Returns the captured
description and the remainder after the closing quote. -/
def descTailAt (l : Chars) : Option (Chars × Chars) :=
  match dropLit "description:".data l with
  | none => none
  | some l1 =>
    let (ws, l2) := l1.span (·.isWhitespace)
    if ws.isEmpty then none else
    match dropLit ['\"'] l2 with
    | none => none
    | some l3 =>
      let (d, l4) := l3.span (· != '\"')
      if d.isEmpty then none else
      match dropLit ['\"'] l4 with
      | none => none
      | some l5 => some (d, l5)

/-- The `.*?` (DOTALL, non-greedy) segment before the description tail: the earliest
position from which the tail matches. -/
def findDescTail : Chars → Option (Chars × Chars)
  | [] => none
  | c :: t =>
    match descTailAt (c :: t) with
    | some r => some r
    | none => findDescTail t

/-- One attempt of the planet regex anchored at the start of `l`.  Returns
the two capture groups (planet name, description) and the remainder of the
text after the match. -/
def matchAt (l : Chars) : Option ((String × String) × Chars) :=
  match dropLit "VedicPlanet::".data l with
  | none => none
  | some l1 =>
    let (name, l2) := l1.span isWordChar
    if name.isEmpty then none else
    match dropLit [','] l2 with
    | none => none
    | some l3 =>
      let (ws1, l4) := l3.span (·.isWhitespace)
      if ws1.isEmpty then none else
      match dropLit "PlanetaryPeriodQualities".data l4 with
      | none => none
      | some l5 =>
        let (ws2, l6) := l5.span (·.isWhitespace)
        if ws2.isEmpty then none else
        match dropLit ['{'] l6 with
        | none => none
        | some l7 =>
          match findDescTail l7 with
          | none => none
          | some (d, rest) => some ((⟨name⟩, ⟨d⟩), rest)

/-- Model of `re.findall`: scan left to right; on a match, emit the groups and resume
after the match, otherwise advance one character.  Every step shortens the
text, so fuel equal to the length of the text suffices. -/
def extractAux : Nat → Chars → List (String × String)
  | 0, _ => []
  | _ + 1, [] => []
  | fuel + 1, c :: t =>
    match matchAt (c :: t) with
    | some (g, rest) => g :: extractAux fuel rest
    | none => extractAux fuel t

/-- Lines 16–17: all matches of the planet pattern. -/
def extractRecords (content : Chars) : List (String × String) :=
  extractAux content.length content

/-- Lookup of `descriptions[planet]`: the dict is written in match order, so a
key maps to its last match. -/
def descLookup (records : List (String × String)) (p : String) : Option String :=
  (records.reverse.find? (fun r => r.1 == p)).map (·.2)

/-- Line 37. -/
def expectedPlanets : List String :=
  ["Sun", "Moon", "Mars", "Mercury", "Jupiter", "Venus", "Saturn", "Rahu", "Ketu"]

/-- Python `f"{s:10}"` for strings: left-justify to the minimum width. -/
def padRight (s : String) (n : Nat) : String := s ++ ⟨List.replicate (n - s.length) ' '⟩

/-- Python `f"{n:3}"` for numbers: right-justify to the minimum width. -/
def padLeft (s : String) (n : Nat) : String := (⟨List.replicate (n - s.length) ' '⟩ : String) ++ s

def bar : String := ⟨List.replicate 70 '='⟩

/-- One line of the per-planet loop (lines 44–53). -/
def planetLine (records : List (String × String)) (p : String) : String :=
  match descLookup records p with
  | some d =>
    let data := mkDescData d
    (if data.valid then "✅" else "❌") ++ " " ++ padRight p 10 ++ " - " ++
      padLeft (toString data.word_count) 3 ++ " words " ++
      (if data.valid then "(PASS)" else "(FAIL: <50 words)")
  | none => "❌ " ++ padRight p 10 ++ " - MISSING"

/-- The per-planet contribution to `all_valid` (lines 44–53). -/
def planetOk (records : List (String × String)) (p : String) : Bool :=
  match descLookup records p with
  | some d => (mkDescData d).valid
  | none => false

/-- Value of `all_valid` after the planet loop. -/
def allValidPlanets (records : List (String × String)) : Bool :=
  expectedPlanets.all (planetOk records)

/-- The completeness check of the spec: the planet loop plus the
`len(planets_found) == 9` conjunct of the final verdict (lines 43–53, 114). -/
def checkCompleteness (records : List (String × String)) : Bool :=
  allValidPlanets records && records.length == 9

/-- Literal `vec!\[` as a character list. -/
def vecBang : Chars := ['v', 'e', 'c', '!', '[']

/-- Pattern `\.to_string\(\)` as a character list. -/
def toStringMarker : Chars := ['.', 't', 'o', '_', 's', 't', 'r', 'i', 'n', 'g', '(', ')']

/-- Pattern `#\[test\]` as a character list. -/
def testMarker : Chars := ['#', '[', 't', 'e', 's', 't', ']']

/-- Count `len(re.findall(pat, l))` for a literal pattern: the number of positions
where the pattern occurs.  `toStringMarker` and `testMarker` have no
self-overlap (no proper prefix is a suffix), so counting positions agrees
with `findall`'s non-overlapping count. -/
def countPat (pat : Chars) : Chars → Nat
  | [] => 0
  | c :: t => (if pat.isPrefixOf (c :: t) then 1 else 0) + countPat pat t

/-- One attempt of a list-field pattern `field:\s+vec!\[(.*?)\]` anchored at
the start of `l`: the literal field name and colon, at least one whitespace
character, the literal `vec![`, then the shortest capture up to `]`. -/
def vecCaptureAt (field : Chars) (l : Chars) : Option Chars :=
  match dropLit (field ++ [':']) l with
  | none => none
  | some l1 =>
    let (ws, l2) := l1.span (·.isWhitespace)
    if ws.isEmpty then none else
    match dropLit vecBang l2 with
    | none => none
    | some l3 =>
      let (body, l4) := l3.span (· != ']')
      match dropLit [']'] l4 with
      | none => none
      | some _ => some body

/-- First match of the list-field pattern (the script uses `matches[0]`). -/
def findVecCapture (field : Chars) : Chars → Option Chars
  | [] => none
  | c :: t =>
    match vecCaptureAt field (c :: t) with
    | some b => some b
    | none => findVecCapture field t

/-- Function `count_items` (lines 64–69): count `.to_string()` occurrences in the
first captured group, or 0 when the field pattern has no match. -/
def count_items (field : Chars) (content : Chars) : Nat :=
  match findVecCapture field content with
  | some body => countPat toStringMarker body
  | none => 0

/-- The four field names of the patterns at lines 59–62. -/
def themesField : Chars := "themes".data
def lifeAreasField : Chars := "life_areas".data
def challengesField : Chars := "challenges".data
def opportunitiesField : Chars := "opportunities".data

/-- Python `str.find`: index of the first occurrence of `pat`, if any. -/
def firstIdx (pat : Chars) : Chars → Option Nat
  | [] => if pat.isEmpty then some 0 else none
  | c :: t => if pat.isPrefixOf (c :: t) then some 0 else (firstIdx pat t).map (· + 1)

/-- Python `str.find` proper: −1 when absent. -/
def pyFind (pat l : Chars) : Int :=
  match firstIdx pat l with
  | some i => i
  | none => -1

/-- Normalise a Python slice index against length `n`. -/
def normIdx (i : Int) (n : Nat) : Nat :=
  if i < 0 then (i + n).toNat else min i.toNat n

/-- Python `l[i:j]`. -/
def pySlice (l : Chars) (i j : Int) : Chars :=
  (l.take (normIdx j l.length)).drop (normIdx i l.length)

/-- Line 75: `content[content.find(a):content.find(b)]`. -/
def isolate_section (a b : Chars) (content : Chars) : Chars :=
  pySlice content (pyFind a content) (pyFind b content)

/-- Python `pat in l` (substring test). -/
def containsLit (pat : Chars) : Chars → Bool
  | [] => pat.isEmpty
  | c :: t => pat.isPrefixOf (c :: t) || containsLit pat t

/-- The secondary artifact as seen by the script: present with some content,
absent (FileNotFoundError), or failing to read with some other error. -/
inductive WitnessFS where
  | found (content : Chars)
  | missing
  | readError (msg : String)

def WitnessFS.fatal : WitnessFS → Bool
  | .readError _ => true
  | _ => false

/-- An uncaught Python exception escaping the run. -/
inductive PyError where
  | other (msg : String)
deriving DecidableEq

def promptMark (b : Bool) : String := if b then "✓" else "✗"

/-- Lines 94–105: the try-block body when `src/witness.rs` reads fine. -/
def witnessLines (c : Chars) : List String :=
  [ "✓ Witness module exists",
    "✓ Unit tests found: " ++ toString (countPat testMarker c),
    promptMark (containsLit "generate_beginner_prompt".data c) ++ " Beginner prompt function",
    promptMark (containsLit "generate_intermediate_prompt".data c) ++ " Intermediate prompt function",
    promptMark (containsLit "generate_advanced_prompt".data c) ++ " Advanced prompt function" ]

def sunSectionOf (content : Chars) : Chars :=
  isolate_section "VedicPlanet::Sun,".data "VedicPlanet::Moon,".data content

/-- Lines 82–87. -/
def countLines (content : Chars) : List String :=
  let sun := sunSectionOf content
  [ "Sun Planet Validation:",
    "  Themes:        " ++ toString (count_items themesField sun) ++ " items",
    "  Life Areas:    " ++ toString (count_items lifeAreasField sun) ++ " items",
    "  Challenges:    " ++ toString (count_items challengesField sun) ++ " items",
    "  Opportunities: " ++ toString (count_items opportunitiesField sun) ++ " items",
    "" ]

/-- Lines 19–72: banners, the found count, the planet loop, and the
completeness-check banner. -/
def headLines (records : List (String × String)) : List String :=
  [ bar, "AGENT 35 VALIDATION REPORT", bar, "",
    "✓ Planets Found: " ++ toString records.length ++ "/9", "" ] ++
  expectedPlanets.map (planetLine records) ++
  [ "", bar, "DATA COMPLETENESS CHECK", bar ]

/-- Lines 114–117. -/
def verdictLine (allValid : Bool) (total : Nat) : String :=
  if allValid && total == 9 then "✅ ALL VALIDATION CHECKS PASSED"
  else "❌ VALIDATION FAILED - See errors above"

structure RunResult where
  lines : List String
  err : Option PyError
deriving DecidableEq

/-- The whole script, from the primary artifact's content (its read is not
modelled as fallible here: the claims concern the secondary artifact) and the
state of the secondary artifact.  Only FileNotFoundError is caught; any other
read error escapes after the lines printed so far. -/
def run (content : Chars) (w : WitnessFS) : RunResult :=
  let records := extractRecords content
  let pre := headLines records ++ countLines content
  match w with
  | .readError e => { lines := pre, err := some (PyError.other e) }
  | .missing =>
      { lines := pre ++ ["✗ witness.rs NOT FOUND"] ++
          ["", bar, verdictLine false records.length, bar],
        err := none }
  | .found c =>
      { lines := pre ++ witnessLines c ++
          ["", bar, verdictLine (allValidPlanets records) records.length, bar],
        err := none }

def secondToLast (l : List String) : Option String := l.reverse.tail.head?

-- Test fixtures used by the concrete-scenario claims.
def itemChunk : Chars := ['\"', 'x', '\"', '.', 't', 'o', '_', 's', 't', 'r', 'i', 'n', 'g', '(', ')', ',', ' ']

def repeatChunk : Nat → Chars
  | 0 => []
  | k + 1 => itemChunk ++ repeatChunk k

def mkVecSection (field : Chars) (k : Nat) : Chars :=
  (field ++ [':']) ++ (' ' :: (vecBang ++ (repeatChunk k ++ [']'])))


/-- The fixture block: one planet entry exactly as the extraction regex
expects it, minus the closing `"` of the description which the match
consumes; `r` is the rest of the artifact. -/
def blockChars (p d : String) : Chars :=
  "VedicPlanet::".data ++ (p.data ++
    (", PlanetaryPeriodQualities \x7b description: \"".data ++ (d.data ++ ['\"'])))


def sixtyWords : String := "w w w w w w w w w w w w w w w w w w w w w w w w w w w w w w w w w w w w w w w w w w w w w w w w w w w w w w w w w w w w"

def fiftyFiveWords : String := "v v v v v v v v v v v v v v v v v v v v v v v v v v v v v v v v v v v v v v v v v v v v v v v v v v v v v v v"

def fiftyWords : String := "u u u u u u u u u u u u u u u u u u u u u u u u u u u u u u u u u u u u u u u u u u u u u u u u u u"


/-- Primary artifact containing all nine expected planets in order, each
with a 60-word description. -/
def goodContent : Chars :=
  blockChars "Sun" sixtyWords ++ (' ' :: '}' :: '\n' ::
  (blockChars "Moon" sixtyWords ++ (' ' :: '}' :: '\n' ::
  (blockChars "Mars" sixtyWords ++ (' ' :: '}' :: '\n' ::
  (blockChars "Mercury" sixtyWords ++ (' ' :: '}' :: '\n' ::
  (blockChars "Jupiter" sixtyWords ++ (' ' :: '}' :: '\n' ::
  (blockChars "Venus" sixtyWords ++ (' ' :: '}' :: '\n' ::
  (blockChars "Saturn" sixtyWords ++ (' ' :: '}' :: '\n' ::
  (blockChars "Rahu" sixtyWords ++ (' ' :: '}' :: '\n' ::
  (blockChars "Ketu" sixtyWords ++ [' ', '}']))))))))))))))))


def goodRecords : List (String × String) := expectedPlanets.map (fun p => (p, sixtyWords))


/-- Primary artifact with the nine planets plus one duplicate Sun block at
the end, whose description has 55 words. -/
def dupContent : Chars :=
  blockChars "Sun" sixtyWords ++ (' ' :: '}' :: '\n' ::
  (blockChars "Moon" sixtyWords ++ (' ' :: '}' :: '\n' ::
  (blockChars "Mars" sixtyWords ++ (' ' :: '}' :: '\n' ::
  (blockChars "Mercury" sixtyWords ++ (' ' :: '}' :: '\n' ::
  (blockChars "Jupiter" sixtyWords ++ (' ' :: '}' :: '\n' ::
  (blockChars "Venus" sixtyWords ++ (' ' :: '}' :: '\n' ::
  (blockChars "Saturn" sixtyWords ++ (' ' :: '}' :: '\n' ::
  (blockChars "Rahu" sixtyWords ++ (' ' :: '}' :: '\n' ::
  (blockChars "Ketu" sixtyWords ++ (' ' :: '}' :: '\n' ::
  (blockChars "Sun" fiftyFiveWords ++ [' ', '}']))))))))))))))))))


def dupRecords : List (String × String) :=
  expectedPlanets.map (fun p => (p, sixtyWords)) ++ [("Sun", fiftyFiveWords)]


/-- Secondary artifact with three test markers and the three prompt
functions. -/
def goodWitnessContent : Chars :=
  ("#[test]\nfn a()\n#[test]\nfn b()\n#[test]\nfn generate_beginner_prompt()\nfn generate_intermediate_prompt()\nfn generate_advanced_prompt()").data

-- ===== helper lemmas =====

lemma dropLit_self_append (p r : Chars) : dropLit p (p ++ r) = some r := by
  simp [dropLit, List.isPrefixOf_iff_prefix, List.prefix_append, List.drop_left]

lemma takeWhile_append_all {p : Char → Bool} (xs : Chars) {y : Char} (r : Chars)
    (hxs : ∀ c ∈ xs, p c = true) (hy : p y = false) :
    (xs ++ y :: r).takeWhile p = xs ∧ (xs ++ y :: r).dropWhile p = y :: r := by
  induction xs with
  | nil => simp [List.takeWhile_cons, List.dropWhile_cons, hy]
  | cons c cs ih =>
    have hc := hxs c (List.mem_cons_self c cs)
    have ih2 := ih (fun a ha => hxs a (List.mem_cons_of_mem c ha))
    simp [List.takeWhile_cons, List.dropWhile_cons, hc, ih2.1, ih2.2]

lemma span_append_all {p : Char → Bool} (xs : Chars) {y : Char} (r : Chars)
    (hxs : ∀ c ∈ xs, p c = true) (hy : p y = false) :
    (xs ++ y :: r).span p = (xs, y :: r) := by
  rw [List.span_eq_take_drop]
  have := takeWhile_append_all xs r hxs hy
  rw [this.1, this.2]

lemma isEmpty_false_of_ne_nil {l : Chars} (h : l ≠ []) : l.isEmpty = false := by
  cases l with
  | nil => exact absurd rfl h
  | cons c t => rfl

lemma isPrefixOf_cons₂ (a : Char) (as : Chars) (b : Char) (bs : Chars) :
    (a :: as).isPrefixOf (b :: bs) = (a == b && as.isPrefixOf bs) := by
  simp [List.isPrefixOf]

lemma dropLit_cons_ne {a : Char} (as : Chars) {b : Char} (bs : Chars) (h : (a == b) = false) :
    dropLit (a :: as) (b :: bs) = none := by
  simp [dropLit, isPrefixOf_cons₂, h]

lemma countPat_chunk (r : Chars) :
    countPat toStringMarker (itemChunk ++ r) = 1 + countPat toStringMarker r := by
  simp +decide [itemChunk, toStringMarker, countPat, List.isPrefixOf]

lemma countPat_repeatChunk (k : Nat) : countPat toStringMarker (repeatChunk k) = k := by
  induction k with
  | zero => simp [repeatChunk, countPat]
  | succ n ih => simp [repeatChunk, countPat_chunk, ih]; omega

lemma no_rbracket_repeatChunk (k : Nat) : ∀ c ∈ repeatChunk k, (c != ']') = true := by
  induction k with
  | zero => simp [repeatChunk]
  | succ n ih =>
    intro c hc
    rcases List.mem_append.mp hc with h | h
    · simp only [bne_iff_ne, ne_eq]
      intro hc'
      subst hc'
      revert h
      decide
    · exact ih c h

lemma vecCaptureAt_mkVecSection (field : Chars) (k : Nat) :
    vecCaptureAt field (mkVecSection field k) = some (repeatChunk k) := by
  have hspan1 : (' ' :: (vecBang ++ (repeatChunk k ++ [']']))).span (·.isWhitespace) =
      ([' '], vecBang ++ (repeatChunk k ++ [']'])) := by
    exact span_append_all [' '] _ (by decide) (by decide)
  have hspan2 : (repeatChunk k ++ [']']).span (· != ']') = (repeatChunk k, [']']) := by
    exact span_append_all (repeatChunk k) [] (no_rbracket_repeatChunk k) (by decide)
  have hdrop : dropLit [']'] [']'] = some ([] : Chars) := by decide
  unfold vecCaptureAt mkVecSection
  simp only [dropLit_self_append, hspan1, hspan2, hdrop, List.isEmpty_cons, if_false,
    Bool.false_eq_true]

lemma findVecCapture_head {field : Chars} {l : Chars} {b : Chars}
    (hne : l ≠ []) (h : vecCaptureAt field l = some b) : findVecCapture field l = some b := by
  cases l with
  | nil => exact absurd rfl hne
  | cons c t => simp [findVecCapture, h]

lemma secondToLast_append (xs : List String) (u v : String) :
    secondToLast (xs ++ [u, v]) = some u := by
  simp [secondToLast, List.reverse_append]

lemma descLookup_mem {records : List (String × String)} {p d : String}
    (h : descLookup records p = some d) : (p, d) ∈ records := by
  unfold descLookup at h
  obtain ⟨x, hfind, hxd⟩ := Option.map_eq_some'.mp h
  have hx1 : x.1 = p := by
    have := List.find?_some hfind
    simpa using this
  have hmem : x ∈ records := List.mem_reverse.mp (List.mem_of_find?_eq_some hfind)
  have : x = (p, d) := by
    cases x
    simp_all
  rwa [this] at hmem

lemma descLookup_isSome {records : List (String × String)} {p : String}
    (h : p ∈ records.map Prod.fst) : ∃ d, descLookup records p = some d := by
  obtain ⟨r, hr, hfst⟩ := List.mem_map.mp h
  have hex : ∃ x ∈ records.reverse, (x.1 == p) = true :=
    ⟨r, List.mem_reverse.mpr hr, by simp [hfst]⟩
  have hsome := List.find?_isSome.mpr hex
  obtain ⟨x, hx⟩ := Option.isSome_iff_exists.mp hsome
  exact ⟨x.2, by unfold descLookup; rw [hx]; rfl⟩

lemma descLookup_eq_none {records : List (String × String)} {p : String}
    (h : p ∉ records.map Prod.fst) : descLookup records p = none := by
  unfold descLookup
  rw [List.find?_eq_none.mpr ?_]
  · rfl
  · intro x hx hbeq
    apply h
    have hx1 : x.1 = p := by simpa using hbeq
    exact hx1 ▸ List.mem_map_of_mem Prod.fst (List.mem_reverse.mp hx)

lemma descLookup_eq_of_nodup {records : List (String × String)} {p d : String}
    (hn : (records.map Prod.fst).Nodup) (h : (p, d) ∈ records) :
    descLookup records p = some d := by
  obtain ⟨d', hd'⟩ := descLookup_isSome (List.mem_map_of_mem Prod.fst h)
  have hmem' : (p, d') ∈ records := descLookup_mem hd'
  have : ((p, d) : String × String) = (p, d') :=
    List.inj_on_of_nodup_map hn h hmem' rfl
  simp at this
  rw [hd', this]

lemma checkCompleteness_eq_true_iff (records : List (String × String)) :
    checkCompleteness records = true ↔
      (∀ p ∈ expectedPlanets, p ∈ records.map Prod.fst) ∧
      (∀ r ∈ records, (mkDescData r.2).valid = true) ∧
      records.length = 9 := by
  unfold checkCompleteness allValidPlanets
  rw [Bool.and_eq_true, List.all_eq_true, beq_iff_eq]
  constructor
  · rintro ⟨hall, hlen⟩
    have hsubset : ∀ p ∈ expectedPlanets, p ∈ records.map Prod.fst := by
      intro p hp
      have hok := hall p hp
      unfold planetOk at hok
      rcases hl : descLookup records p with _ | d
      · rw [hl] at hok
        exact absurd hok (by simp)
      · exact List.mem_map_of_mem Prod.fst (descLookup_mem hl)
    refine ⟨hsubset, ?_, hlen⟩
    -- pigeonhole: nine distinct expected names inside nine keys force the
    -- keys to be exactly the expected names, with no duplicates
    have hnodupE : expectedPlanets.Nodup := by decide
    have hsub : expectedPlanets ⊆ records.map Prod.fst := fun p hp => hsubset p hp
    have hsp : expectedPlanets.Subperm (records.map Prod.fst) := hnodupE.subperm hsub
    have hlenkeys : (records.map Prod.fst).length = 9 := by
      rw [List.length_map]
      exact hlen
    have hperm : expectedPlanets.Perm (records.map Prod.fst) :=
      hsp.perm_of_length_le (by rw [hlenkeys]; decide)
    have hnodupK : (records.map Prod.fst).Nodup := hperm.nodup_iff.mp hnodupE
    intro r hr
    have hkey : r.1 ∈ records.map Prod.fst := List.mem_map_of_mem Prod.fst hr
    have hexp : r.1 ∈ expectedPlanets := hperm.mem_iff.mpr hkey
    have hok := hall r.1 hexp
    unfold planetOk at hok
    have hl : descLookup records r.1 = some r.2 := descLookup_eq_of_nodup hnodupK hr
    rw [hl] at hok
    exact hok
  · rintro ⟨hsubset, hvalid, hlen⟩
    refine ⟨?_, hlen⟩
    intro p hp
    obtain ⟨d, hd⟩ := descLookup_isSome (hsubset p hp)
    unfold planetOk
    rw [hd]
    exact hvalid (p, d) (descLookup_mem hd)

lemma allValidPlanets_false_of_missing {records : List (String × String)} {p : String}
    (hp : p ∈ expectedPlanets) (hm : p ∉ records.map Prod.fst) :
    allValidPlanets records = false := by
  rw [← Bool.not_eq_true]
  intro hall
  have hok := List.all_eq_true.mp hall p hp
  rw [planetOk, descLookup_eq_none hm] at hok
  exact absurd hok (by simp)

lemma ne_of_data_take_ne (s t : String) (k : Nat) (h : s.data.take k ≠ t.data.take k) :
    s ≠ t := by
  intro he
  exact h (he ▸ rfl)

lemma data_take_append (a b : String) (k : Nat) (h : k ≤ a.length) :
    ((a ++ b).data.take k) = a.data.take k := by
  rw [String.data_append]
  exact List.take_append_of_le_length h

lemma chain2_ne (A W B lit : String) (k : Nat) (hk : k ≤ A.length)
    (h : A.data.take k ≠ lit.data.take k) : (A ++ W) ++ B ≠ lit := by
  apply ne_of_data_take_ne _ _ k
  rw [data_take_append _ B k (by rw [String.length_append]; omega),
      data_take_append A W k hk]
  exact h

lemma chain3_ne (A W B C lit : String) (k : Nat) (hk : k ≤ A.length)
    (h : A.data.take k ≠ lit.data.take k) : ((A ++ W) ++ B) ++ C ≠ lit := by
  apply ne_of_data_take_ne _ _ k
  rw [data_take_append _ C k (by rw [String.length_append, String.length_append]; omega),
      data_take_append _ B k (by rw [String.length_append]; omega),
      data_take_append A W k hk]
  exact h

-- the two verdict strings never appear among the lines printed before the
-- witness inspection

lemma planetLine_ne_verdict (records : List (String × String)) (p : String)
    (hp : p ∈ expectedPlanets) :
    planetLine records p ≠ "✅ ALL VALIDATION CHECKS PASSED" ∧
    planetLine records p ≠ "❌ VALIDATION FAILED - See errors above" := by
  rcases hl : descLookup records p with _ | d
  · rw [planetLine, hl]
    fin_cases hp <;> exact ⟨by decide, by decide⟩
  · rw [planetLine, hl]
    cases hv : (mkDescData d).valid <;>
      simp only [hv, if_true, if_false, Bool.false_eq_true, ite_false, ite_true] <;>
      fin_cases hp <;>
      exact ⟨chain3_ne _ _ _ _ _ 4 (by decide) (by decide),
             chain3_ne _ _ _ _ _ 4 (by decide) (by decide)⟩

lemma pre_lines_ne_verdict (records : List (String × String)) (content : Chars) (lit : String)
    (hlit : lit = "✅ ALL VALIDATION CHECKS PASSED" ∨
            lit = "❌ VALIDATION FAILED - See errors above") :
    lit ∉ headLines records ++ countLines content := by
  intro hmem
  rw [headLines, countLines] at hmem
  simp only [List.mem_append, List.mem_cons, List.mem_singleton, List.mem_map,
    List.not_mem_nil, or_false] at hmem
  rcases hlit with hl | hl <;> subst hl <;>
  rcases hmem with (((h | h | h | h | h | h) | ⟨q, hq, heq⟩) | (h | h | h | h)) | (h | h | h | h | h | h) <;>
    first
      | exact absurd h (by decide)
      | exact (planetLine_ne_verdict records q hq).1 heq
      | exact (planetLine_ne_verdict records q hq).2 heq
      | exact absurd h.symm (chain2_ne _ _ _ _ 1 (by decide) (by decide))

lemma dropLit_some_eq {pat l r : Chars} (h : dropLit pat l = some r) : l = pat ++ r := by
  unfold dropLit at h
  split at h
  · next hpre =>
    obtain ⟨t, ht⟩ := List.isPrefixOf_iff_prefix.mp hpre
    have hr : r = l.drop pat.length := (Option.some.inj h).symm
    rw [hr, ← ht, List.drop_left]
  · exact absurd h (by simp)

lemma length_dropWhile_le (p : Char → Bool) (l : Chars) :
    (l.dropWhile p).length ≤ l.length := by
  induction l with
  | nil => simp
  | cons c t ih =>
    rw [List.dropWhile_cons]
    split
    · exact le_trans ih (by simp)
    · simp

lemma descTailAt_length_le {l : Chars} {d r : Chars} (h : descTailAt l = some (d, r)) :
    r.length ≤ l.length := by
  unfold descTailAt at h
  rcases h1 : dropLit "description:".data l with _ | l1 <;> rw [h1] at h <;> simp only [] at h
  · exact Option.noConfusion h
  simp only [List.span_eq_take_drop] at h
  by_cases hws : (l1.takeWhile (·.isWhitespace)).isEmpty = true
  · rw [if_pos hws] at h
    exact Option.noConfusion h
  rw [if_neg hws] at h
  rcases h3 : dropLit ['\"'] (l1.dropWhile (·.isWhitespace)) with _ | l3 <;> rw [h3] at h <;> simp only [] at h
  · exact Option.noConfusion h
  by_cases hde : (l3.takeWhile (· != '\"')).isEmpty = true
  · rw [if_pos hde] at h
    exact Option.noConfusion h
  rw [if_neg hde] at h
  rcases h5 : dropLit ['\"'] (l3.dropWhile (· != '\"')) with _ | l5 <;> rw [h5] at h <;> simp only [] at h
  · exact Option.noConfusion h
  have hr : r = l5 := (congrArg Prod.snd (Option.some.inj h)).symm
  have e1 : l = "description:".data ++ l1 := dropLit_some_eq h1
  have e3 : l1.dropWhile (·.isWhitespace) = ['\"'] ++ l3 := dropLit_some_eq h3
  have e5 : l3.dropWhile (· != '\"') = ['\"'] ++ l5 := dropLit_some_eq h5
  have b1 : l1.length ≤ l.length := by
    rw [e1]
    simp [List.length_append]
    omega
  have b3 : l3.length ≤ l1.length := by
    have := length_dropWhile_le (·.isWhitespace) l1
    rw [e3] at this
    simp [List.length_append] at this
    omega
  have b5 : l5.length ≤ l3.length := by
    have := length_dropWhile_le (· != '\"') l3
    rw [e5] at this
    simp [List.length_append] at this
    omega
  rw [hr]
  omega

lemma findDescTail_length_le {l : Chars} {d r : Chars} (h : findDescTail l = some (d, r)) :
    r.length ≤ l.length := by
  induction l with
  | nil => simp [findDescTail] at h
  | cons c t ih =>
    rw [findDescTail] at h
    split at h
    · next v hv =>
      cases v with
      | mk dd rr =>
        rw [Option.some.inj h] at hv
        exact descTailAt_length_le hv
    · exact le_trans (ih h) (by simp)

lemma matchAt_length_lt {l : Chars} {g : String × String} {rest : Chars}
    (h : matchAt l = some (g, rest)) : rest.length < l.length := by
  unfold matchAt at h
  rcases h1 : dropLit "VedicPlanet::".data l with _ | l1 <;> rw [h1] at h <;> simp only [] at h
  · exact Option.noConfusion h
  simp only [List.span_eq_take_drop] at h
  by_cases hnm : (l1.takeWhile isWordChar).isEmpty = true
  · rw [if_pos hnm] at h
    exact Option.noConfusion h
  rw [if_neg hnm] at h
  rcases h3 : dropLit [','] (l1.dropWhile isWordChar) with _ | l3 <;> rw [h3] at h <;> simp only [] at h
  · exact Option.noConfusion h
  by_cases hw1 : (l3.takeWhile (·.isWhitespace)).isEmpty = true
  · rw [if_pos hw1] at h
    exact Option.noConfusion h
  rw [if_neg hw1] at h
  rcases h5 : dropLit "PlanetaryPeriodQualities".data (l3.dropWhile (·.isWhitespace)) with _ | l5 <;>
    rw [h5] at h <;> simp only [] at h
  · exact Option.noConfusion h
  by_cases hw2 : (l5.takeWhile (·.isWhitespace)).isEmpty = true
  · rw [if_pos hw2] at h
    exact Option.noConfusion h
  rw [if_neg hw2] at h
  rcases h7 : dropLit ['{'] (l5.dropWhile (·.isWhitespace)) with _ | l7 <;> rw [h7] at h <;> simp only [] at h
  · exact Option.noConfusion h
  rcases h9 : findDescTail l7 with _ | v <;> rw [h9] at h <;> simp only [] at h
  · exact Option.noConfusion h
  cases v with
  | mk dd rr =>
    have hrr : rest = rr := (congrArg Prod.snd (Option.some.inj h)).symm
    have bf : rr.length ≤ l7.length := findDescTail_length_le h9
    have e1 : l = "VedicPlanet::".data ++ l1 := dropLit_some_eq h1
    have e3 : l1.dropWhile isWordChar = [','] ++ l3 := dropLit_some_eq h3
    have e5 : l3.dropWhile (·.isWhitespace) = "PlanetaryPeriodQualities".data ++ l5 :=
      dropLit_some_eq h5
    have e7 : l5.dropWhile (·.isWhitespace) = ['{'] ++ l7 := dropLit_some_eq h7
    have b1 : l1.length + 13 = l.length := by
      rw [e1]
      simp [List.length_append]
    have b3 : l3.length ≤ l1.length := by
      have := length_dropWhile_le isWordChar l1
      rw [e3] at this
      simp [List.length_append] at this
      omega
    have b5 : l5.length ≤ l3.length := by
      have := length_dropWhile_le (·.isWhitespace) l3
      rw [e5] at this
      simp [List.length_append] at this
      omega
    have b7 : l7.length ≤ l5.length := by
      have := length_dropWhile_le (·.isWhitespace) l5
      rw [e7] at this
      simp [List.length_append] at this
      omega
    rw [hrr]
    omega

lemma extractAux_adequate (n : Nat) :
    ∀ (f₁ f₂ : Nat) (l : Chars), l.length ≤ n → l.length ≤ f₁ → l.length ≤ f₂ →
      extractAux f₁ l = extractAux f₂ l := by
  induction n with
  | zero =>
    intro f₁ f₂ l hn _ _
    have : l = [] := List.length_eq_zero.mp (Nat.le_zero.mp hn)
    subst this
    cases f₁ <;> cases f₂ <;> rfl
  | succ m ih =>
    intro f₁ f₂ l hn h₁ h₂
    cases l with
    | nil => cases f₁ <;> cases f₂ <;> rfl
    | cons c t =>
      have hl : (c :: t).length = t.length + 1 := by simp
      cases f₁ with
      | zero => simp [hl] at h₁
      | succ g₁ =>
        cases f₂ with
        | zero => simp [hl] at h₂
        | succ g₂ =>
          rw [extractAux, extractAux]
          rcases hm : matchAt (c :: t) with _ | gr <;> simp only [] at *
          · have ht : t.length ≤ m := by
              simp at hn
              omega
            exact ih g₁ g₂ t ht (by simp at h₁; omega) (by simp at h₂; omega)
          · cases gr with
            | mk g rest =>
              have hlt : rest.length < (c :: t).length := matchAt_length_lt hm
              have hr : rest.length ≤ m := by
                simp at hn hlt
                omega
              rw [ih g₁ g₂ rest hr (by simp at h₁ hlt; omega) (by simp at h₂ hlt; omega)]

lemma extractRecords_cons_match {c : Char} {t : Chars} {g : String × String} {rest : Chars}
    (h : matchAt (c :: t) = some (g, rest)) :
    extractRecords (c :: t) = g :: extractRecords rest := by
  have hlt : rest.length < (c :: t).length := matchAt_length_lt h
  rw [extractRecords, show (c :: t).length = t.length + 1 from by simp, extractAux, h]
  simp only []
  rw [extractRecords]
  have : extractAux t.length rest = extractAux rest.length rest := by
    apply extractAux_adequate rest.length _ _ rest le_rfl
    · simp at hlt
      omega
    · exact le_rfl
  rw [this]

lemma extractRecords_cons_skip {c : Char} {t : Chars} (h : matchAt (c :: t) = none) :
    extractRecords (c :: t) = extractRecords t := by
  rw [extractRecords, show (c :: t).length = t.length + 1 from by simp, extractAux, h]
  rw [extractRecords]

lemma matchAt_cons_ne (c : Char) (t : Chars) (h : c ≠ 'V') : matchAt (c :: t) = none := by
  rw [matchAt, show "VedicPlanet::".data = 'V' :: "edicPlanet::".data from rfl,
    dropLit_cons_ne _ _ (by simp [Ne.symm h])]

lemma descTailAt_cons_ne (c : Char) (t : Chars) (h : c ≠ 'd') : descTailAt (c :: t) = none := by
  rw [descTailAt, show "description:".data = 'd' :: "escription:".data from rfl,
    dropLit_cons_ne _ _ (by simp [Ne.symm h])]

lemma findDescTail_cons_none {c : Char} {t : Chars} (h : descTailAt (c :: t) = none) :
    findDescTail (c :: t) = findDescTail t := by
  rw [findDescTail, h]

lemma findDescTail_cons_some {c : Char} {t : Chars} {v : Chars × Chars}
    (h : descTailAt (c :: t) = some v) : findDescTail (c :: t) = some v := by
  rw [findDescTail, h]

lemma descTailAt_exact (desc r : Chars) (hd : desc ≠ [])
    (hdq : ∀ c ∈ desc, (c != '\"') = true) :
    descTailAt ("description: \"".data ++ (desc ++ ('\"' :: r))) = some (desc, r) := by
  rw [descTailAt,
    show "description: \"".data ++ (desc ++ ('\"' :: r)) =
      "description:".data ++ (' ' :: ('\"' :: (desc ++ ('\"' :: r)))) from rfl,
    dropLit_self_append]
  simp only []
  rw [show (' ' :: ('\"' :: (desc ++ ('\"' :: r)))) = [' '] ++ ('\"' :: (desc ++ ('\"' :: r)))
      from rfl,
    span_append_all [' '] _ (by decide) (by decide)]
  simp only [List.isEmpty_cons, Bool.false_eq_true, if_false]
  rw [show ('\"' :: (desc ++ ('\"' :: r))) = ['\"'] ++ (desc ++ ('\"' :: r)) from rfl,
    dropLit_self_append]
  simp only []
  rw [span_append_all desc _ hdq (by decide)]
  simp only [isEmpty_false_of_ne_nil hd, Bool.false_eq_true, if_false]
  rw [show ('\"' :: r) = ['\"'] ++ r from rfl, dropLit_self_append]

lemma matchAt_blockChars (p d : String) (r : Chars)
    (hn : p.data ≠ []) (hnw : ∀ c ∈ p.data, isWordChar c = true)
    (hd : d.data ≠ []) (hdq : ∀ c ∈ d.data, (c != '\"') = true) :
    matchAt (blockChars p d ++ r) = some ((p, d), r) := by
  have hassoc : blockChars p d ++ r = "VedicPlanet::".data ++ (p.data ++
      (", PlanetaryPeriodQualities \x7b description: \"".data ++ (d.data ++ ('\"' :: r)))) := by
    simp [blockChars, List.append_assoc]
  rw [hassoc, matchAt, dropLit_self_append]
  simp only []
  rw [show ", PlanetaryPeriodQualities \x7b description: \"".data ++ (d.data ++ ('\"' :: r)) =
      ',' :: (" PlanetaryPeriodQualities \x7b description: \"".data ++ (d.data ++ ('\"' :: r)))
      from rfl,
    span_append_all p.data _ hnw (by decide)]
  simp only [isEmpty_false_of_ne_nil hn, Bool.false_eq_true, if_false]
  rw [show (',' :: (" PlanetaryPeriodQualities \x7b description: \"".data ++
        (d.data ++ ('\"' :: r)))) =
      [','] ++ (" PlanetaryPeriodQualities \x7b description: \"".data ++
        (d.data ++ ('\"' :: r))) from rfl,
    dropLit_self_append]
  simp only []
  rw [show " PlanetaryPeriodQualities \x7b description: \"".data ++ (d.data ++ ('\"' :: r)) =
      [' '] ++ ('P' :: ("lanetaryPeriodQualities \x7b description: \"".data ++
        (d.data ++ ('\"' :: r)))) from rfl,
    span_append_all [' '] _ (by decide) (by decide)]
  simp only [List.isEmpty_cons, Bool.false_eq_true, if_false]
  rw [show ('P' :: ("lanetaryPeriodQualities \x7b description: \"".data ++
        (d.data ++ ('\"' :: r)))) =
      "PlanetaryPeriodQualities".data ++ (" \x7b description: \"".data ++
        (d.data ++ ('\"' :: r))) from rfl,
    dropLit_self_append]
  simp only []
  rw [show " \x7b description: \"".data ++ (d.data ++ ('\"' :: r)) =
      [' '] ++ ('{' :: (' ' :: ("description: \"".data ++ (d.data ++ ('\"' :: r))))) from rfl,
    span_append_all [' '] _ (by decide) (by decide)]
  simp only [List.isEmpty_cons, Bool.false_eq_true, if_false]
  rw [show ('{' :: (' ' :: ("description: \"".data ++ (d.data ++ ('\"' :: r))))) =
      ['{'] ++ (' ' :: ("description: \"".data ++ (d.data ++ ('\"' :: r)))) from rfl,
    dropLit_self_append]
  simp only []
  rw [findDescTail_cons_none (descTailAt_cons_ne _ _ (by decide))]
  rw [show "description: \"".data ++ (d.data ++ ('\"' :: r)) =
      'd' :: ("escription: \"".data ++ (d.data ++ ('\"' :: r))) from rfl]
  rw [findDescTail_cons_some
    (show descTailAt ('d' :: ("escription: \"".data ++ (d.data ++ ('\"' :: r)))) =
        some (d.data, r) from descTailAt_exact d.data r hd hdq)]

-- ===== concrete fixtures =====

lemma extractRecords_block (p d : String) (r : Chars)
    (hn : p.data ≠ []) (hnw : ∀ c ∈ p.data, isWordChar c = true)
    (hd : d.data ≠ []) (hdq : ∀ c ∈ d.data, (c != '\"') = true) :
    extractRecords (blockChars p d ++ r) = (p, d) :: extractRecords r := by
  have hm := matchAt_blockChars p d r hn hnw hd hdq
  rw [show blockChars p d ++ r = 'V' :: (("edicPlanet::".data ++ (p.data ++
      (", PlanetaryPeriodQualities \x7b description: \"".data ++ (d.data ++ ['\"'])))) ++ r)
      from rfl] at hm ⊢
  exact extractRecords_cons_match hm

lemma extractRecords_glue (t : Chars) :
    extractRecords (' ' :: '}' :: '\n' :: t) = extractRecords t := by
  rw [extractRecords_cons_skip (matchAt_cons_ne _ _ (by decide)),
    extractRecords_cons_skip (matchAt_cons_ne _ _ (by decide)),
    extractRecords_cons_skip (matchAt_cons_ne _ _ (by decide))]

lemma sixty_ok : sixtyWords.data ≠ [] ∧ ∀ c ∈ sixtyWords.data, (c != '\"') = true := by
  decide

lemma fiftyFive_ok : fiftyFiveWords.data ≠ [] ∧ ∀ c ∈ fiftyFiveWords.data, (c != '\"') = true := by
  decide

lemma extractRecords_goodContent : extractRecords goodContent = goodRecords := by
  rw [goodContent,
    extractRecords_block _ _ _ (by decide) (by decide) sixty_ok.1 sixty_ok.2,
    extractRecords_glue,
    extractRecords_block _ _ _ (by decide) (by decide) sixty_ok.1 sixty_ok.2,
    extractRecords_glue,
    extractRecords_block _ _ _ (by decide) (by decide) sixty_ok.1 sixty_ok.2,
    extractRecords_glue,
    extractRecords_block _ _ _ (by decide) (by decide) sixty_ok.1 sixty_ok.2,
    extractRecords_glue,
    extractRecords_block _ _ _ (by decide) (by decide) sixty_ok.1 sixty_ok.2,
    extractRecords_glue,
    extractRecords_block _ _ _ (by decide) (by decide) sixty_ok.1 sixty_ok.2,
    extractRecords_glue,
    extractRecords_block _ _ _ (by decide) (by decide) sixty_ok.1 sixty_ok.2,
    extractRecords_glue,
    extractRecords_block _ _ _ (by decide) (by decide) sixty_ok.1 sixty_ok.2,
    extractRecords_glue,
    extractRecords_block _ _ _ (by decide) (by decide) sixty_ok.1 sixty_ok.2]
  rw [show extractRecords [' ', '}'] = [] from by decide]
  rfl

lemma extractRecords_dupContent : extractRecords dupContent = dupRecords := by
  rw [dupContent,
    extractRecords_block _ _ _ (by decide) (by decide) sixty_ok.1 sixty_ok.2,
    extractRecords_glue,
    extractRecords_block _ _ _ (by decide) (by decide) sixty_ok.1 sixty_ok.2,
    extractRecords_glue,
    extractRecords_block _ _ _ (by decide) (by decide) sixty_ok.1 sixty_ok.2,
    extractRecords_glue,
    extractRecords_block _ _ _ (by decide) (by decide) sixty_ok.1 sixty_ok.2,
    extractRecords_glue,
    extractRecords_block _ _ _ (by decide) (by decide) sixty_ok.1 sixty_ok.2,
    extractRecords_glue,
    extractRecords_block _ _ _ (by decide) (by decide) sixty_ok.1 sixty_ok.2,
    extractRecords_glue,
    extractRecords_block _ _ _ (by decide) (by decide) sixty_ok.1 sixty_ok.2,
    extractRecords_glue,
    extractRecords_block _ _ _ (by decide) (by decide) sixty_ok.1 sixty_ok.2,
    extractRecords_glue,
    extractRecords_block _ _ _ (by decide) (by decide) sixty_ok.1 sixty_ok.2,
    extractRecords_glue,
    extractRecords_block _ _ _ (by decide) (by decide) fiftyFive_ok.1 fiftyFive_ok.2]
  rw [show extractRecords [' ', '}'] = [] from by decide]
  rfl

-- ===== claim theorems =====

/-- Claim C1: the completeness check reports FAIL exactly when some expected
planet is missing from the extracted records, some extracted record has an
invalid description (at most 50 words), or the number of extracted records
differs from 9; otherwise PASS. -/
theorem checkCompleteness_fail_iff (records : List (String × String)) :
    checkCompleteness records = false ↔
      (∃ p ∈ expectedPlanets, p ∉ records.map Prod.fst) ∨
      (∃ r ∈ records, (mkDescData r.2).valid = false) ∨
      records.length ≠ 9 := by
  rw [← Bool.not_eq_true, checkCompleteness_eq_true_iff]
  rw [not_and_or, not_and_or]
  constructor
  · rintro (h | h | h)
    · left
      push_neg at h
      exact h
    · right
      left
      push_neg at h
      obtain ⟨r, hr, hv⟩ := h
      exact ⟨r, hr, by simpa using hv⟩
    · right
      right
      exact h
  · rintro (⟨p, hp, hnp⟩ | ⟨r, hr, hv⟩ | hlen)
    · left
      push_neg
      exact ⟨p, hp, hnp⟩
    · right
      left
      push_neg
      exact ⟨r, hr, by simp [hv]⟩
    · right
      right
      exact hlen

-- ===== C3 =====

theorem checkCompleteness_fail_iff_witness :
    checkCompleteness [] = false ↔
      ((∃ p ∈ expectedPlanets, p ∉ ([] : List (String × String)).map Prod.fst) ∨
      (∃ r ∈ ([] : List (String × String)), (mkDescData r.2).valid = false) ∨
      ([] : List (String × String)).length ≠ 9) :=
  checkCompleteness_fail_iff []

/-- Claim C2: an extracted description is valid iff its whitespace-separated
word count strictly exceeds 50; a description with exactly 50 words is
invalid. -/
theorem valid_iff_word_count_gt_50 :
    (∀ d : String, ((mkDescData d).valid = true ↔ (mkDescData d).word_count > 50)) ∧
    (∀ d : String, wordCount d = 50 → (mkDescData d).valid = false) := by
  constructor
  · intro d
    simp [mkDescData]
  · intro d h
    simp [mkDescData, h]

-- ===== C1 =====

theorem valid_iff_word_count_gt_50_witness :
    wordCount fiftyWords = 50 ∧ (mkDescData fiftyWords).valid = false :=
  ⟨by decide, valid_iff_word_count_gt_50.2 fiftyWords (by decide)⟩

/-- Claim C3: when an expected planet is absent from extraction, the report
contains its MISSING line and the final verdict is VALIDATION FAILED
(provided no unhandled witness read error aborts the run first). -/
theorem missing_planet_reported (content : Chars) (w : WitnessFS) (p : String)
    (hp : p ∈ expectedPlanets)
    (hm : p ∉ (extractRecords content).map Prod.fst)
    (hw : w.fatal = false) :
    ("❌ " ++ padRight p 10 ++ " - MISSING") ∈ (run content w).lines ∧
    "❌ VALIDATION FAILED - See errors above" ∈ (run content w).lines := by
  have hline : planetLine (extractRecords content) p =
      "❌ " ++ padRight p 10 ++ " - MISSING" := by
    rw [planetLine, descLookup_eq_none hm]
  have hmemline : ("❌ " ++ padRight p 10 ++ " - MISSING") ∈
      expectedPlanets.map (planetLine (extractRecords content)) := by
    rw [← hline]
    exact List.mem_map_of_mem _ hp
  have hfail := allValidPlanets_false_of_missing hp hm
  cases w with
  | readError e => simp [WitnessFS.fatal] at hw
  | missing =>
    have hverd : "❌ VALIDATION FAILED - See errors above" =
        verdictLine false (extractRecords content).length := by
      simp [verdictLine]
    refine ⟨?_, ?_⟩
    · simp only [run, headLines, List.mem_append]
      tauto
    · simp only [run, List.mem_append, List.mem_cons, List.mem_singleton]
      tauto
  | found c =>
    have hverd : "❌ VALIDATION FAILED - See errors above" =
        verdictLine (allValidPlanets (extractRecords content))
          (extractRecords content).length := by
      rw [hfail]
      simp [verdictLine]
    refine ⟨?_, ?_⟩
    · simp only [run, headLines, List.mem_append]
      tauto
    · simp only [run, List.mem_append, List.mem_cons, List.mem_singleton]
      tauto

-- ===== C4 =====

theorem missing_planet_reported_witness :
    ("❌ " ++ padRight "Sun" 10 ++ " - MISSING") ∈ (run [] WitnessFS.missing).lines ∧
    "❌ VALIDATION FAILED - See errors above" ∈ (run [] WitnessFS.missing).lines :=
  missing_planet_reported [] WitnessFS.missing "Sun" (by decide) (by decide) rfl

/-- Claim C4: when the witness module file is absent the run does not raise:
the report marks it NOT FOUND and the aggregate verdict is VALIDATION
FAILED. -/
theorem witness_absent_handled (content : Chars) :
    (run content WitnessFS.missing).err = none ∧
    "✗ witness.rs NOT FOUND" ∈ (run content WitnessFS.missing).lines ∧
    "❌ VALIDATION FAILED - See errors above" ∈ (run content WitnessFS.missing).lines := by
  refine ⟨rfl, ?_, ?_⟩
  · simp [run]
  · simp [run, verdictLine]

-- ===== C10 =====

theorem witness_absent_handled_witness :
    (run [] WitnessFS.missing).err = none ∧
    "✗ witness.rs NOT FOUND" ∈ (run [] WitnessFS.missing).lines ∧
    "❌ VALIDATION FAILED - See errors above" ∈ (run [] WitnessFS.missing).lines :=
  witness_absent_handled []

/-- Claim C5: count_items returns k on a section whose field holds exactly k
quoted-and-converted string items, and 0 on a section with no match of the
field pattern. -/
theorem count_items_counts_markers :
    (∀ (field : Chars) (k : Nat), count_items field (mkVecSection field k) = k) ∧
    (∀ (field text : Chars), findVecCapture field text = none → count_items field text = 0) := by
  constructor
  · intro field k
    have hne : mkVecSection field k ≠ [] := by
      intro h
      have := congrArg List.length h
      simp [mkVecSection] at this
    simp only [count_items, findVecCapture_head hne (vecCaptureAt_mkVecSection field k),
      countPat_repeatChunk]
  · intro field text h
    simp only [count_items, h]

-- ===== C6 =====

theorem count_items_counts_markers_witness :
    count_items themesField (mkVecSection themesField 3) = 3 ∧
    count_items themesField ['z'] = 0 :=
  ⟨count_items_counts_markers.1 themesField 3,
   count_items_counts_markers.2 themesField ['z'] (by decide)⟩

/-- Claim C6: isolate_section returns exactly the substring from the first
occurrence of marker a (inclusive) to the first occurrence of marker b
(exclusive). -/
theorem isolate_section_between_markers (a b pre mid suf : Chars)
    (ha : firstIdx a (pre ++ (a ++ (mid ++ (b ++ suf)))) = some pre.length)
    (hb : firstIdx b (pre ++ (a ++ (mid ++ (b ++ suf)))) =
      some (pre.length + a.length + mid.length)) :
    isolate_section a b (pre ++ (a ++ (mid ++ (b ++ suf)))) = a ++ mid := by
  unfold isolate_section pyFind
  rw [ha, hb]
  unfold pySlice normIdx
  have hlen : (pre ++ (a ++ (mid ++ (b ++ suf)))).length =
      pre.length + a.length + mid.length + b.length + suf.length := by
    simp [List.length_append]
    omega
  have h1 : ¬ ((pre.length : Int) < 0) := by omega
  have h2 : ¬ (((pre.length + a.length + mid.length : Nat) : Int) < 0) := by omega
  rw [if_neg h1, if_neg h2]
  rw [Int.toNat_natCast, Int.toNat_natCast]
  rw [hlen]
  rw [min_eq_left (by omega), min_eq_left (by omega)]
  have hsplit : pre ++ (a ++ (mid ++ (b ++ suf))) = (pre ++ a ++ mid) ++ (b ++ suf) := by
    simp [List.append_assoc]
  rw [hsplit]
  have htake : pre.length + a.length + mid.length = (pre ++ a ++ mid).length := by
    simp [List.length_append]
    omega
  rw [htake, List.take_left]
  have hsplit2 : pre ++ a ++ mid = pre ++ (a ++ mid) := by simp [List.append_assoc]
  rw [hsplit2, List.drop_left]

-- ===== C8 =====

theorem isolate_section_between_markers_witness :
    isolate_section "AB".data "CD".data
      ("x".data ++ ("AB".data ++ ("y".data ++ ("CD".data ++ "z".data)))) =
    "AB".data ++ "y".data :=
  isolate_section_between_markers "AB".data "CD".data "x".data "y".data "z".data
    (by decide) (by decide)

/-- Claim C7: with all nine planets holding 60-word descriptions and a
witness module holding 3 test markers and all three prompt functions, the
report prints 9/9 found, a PASS line for every planet, the test count, and
ALL VALIDATION CHECKS PASSED. -/
theorem all_pass_scenario :
    "✓ Planets Found: 9/9" ∈ (run goodContent (WitnessFS.found goodWitnessContent)).lines ∧
    (∀ p ∈ expectedPlanets,
      ("✅ " ++ padRight p 10 ++ " -  60 words (PASS)") ∈
        (run goodContent (WitnessFS.found goodWitnessContent)).lines) ∧
    "✓ Unit tests found: 3" ∈ (run goodContent (WitnessFS.found goodWitnessContent)).lines ∧
    "✅ ALL VALIDATION CHECKS PASSED" ∈
      (run goodContent (WitnessFS.found goodWitnessContent)).lines := by
  have hrec := extractRecords_goodContent
  refine ⟨?_, ?_, ?_, ?_⟩
  · simp only [run, hrec]
    exact List.mem_append_left _ (List.mem_append_left _ (List.mem_append_left _ (by decide)))
  · intro p hp
    simp only [run, hrec]
    fin_cases hp <;>
      exact List.mem_append_left _ (List.mem_append_left _ (List.mem_append_left _ (by decide)))
  · simp only [run, hrec]
    exact List.mem_append_left _ (List.mem_append_right _ (by decide))
  · simp only [run, hrec]
    exact List.mem_append_right _ (by decide)

theorem all_pass_scenario_witness :
    ("✅ " ++ padRight "Sun" 10 ++ " -  60 words (PASS)") ∈
      (run goodContent (WitnessFS.found goodWitnessContent)).lines :=
  all_pass_scenario.2.1 "Sun" (by decide)

/-- Claim C8: the aggregate verdict line does not depend on the witness
module content when the file exists; two runs differing only in that content
print the same verdict line and err the same way. -/
theorem verdict_independent_of_witness_content (content : Chars) (c1 c2 : Chars) :
    secondToLast (run content (WitnessFS.found c1)).lines =
      secondToLast (run content (WitnessFS.found c2)).lines ∧
    (run content (WitnessFS.found c1)).err = (run content (WitnessFS.found c2)).err := by
  constructor
  · show secondToLast (_ ++ _ ++ ["", bar, _, bar]) = secondToLast (_ ++ _ ++ ["", bar, _, bar])
    have hgrp : ∀ (p wl : List String) (v : String),
        p ++ wl ++ ["", bar, v, bar] = (p ++ wl ++ ["", bar]) ++ [v, bar] := by
      intro p wl v
      simp
    rw [hgrp, hgrp, secondToLast_append, secondToLast_append]
  · rfl

-- ===== C2 =====

theorem verdict_independent_of_witness_content_witness :
    (secondToLast (run [] (WitnessFS.found [])).lines =
      secondToLast (run [] (WitnessFS.found ['x'])).lines) ∧
    (run [] (WitnessFS.found [])).err = (run [] (WitnessFS.found ['x'])).err :=
  verdict_independent_of_witness_content [] [] ['x']

/-- Claim C9: a duplicate planet match is counted in the found total (10/9),
forcing VALIDATION FAILED even though every extracted description is valid,
and the duplicated planet reports the word count of its last match. -/
theorem duplicate_match_counted :
    (extractRecords dupContent).length = 10 ∧
    ((extractRecords dupContent).all fun r => (mkDescData r.2).valid) = true ∧
    "✓ Planets Found: 10/9" ∈ (run dupContent (WitnessFS.found goodWitnessContent)).lines ∧
    "❌ VALIDATION FAILED - See errors above" ∈
      (run dupContent (WitnessFS.found goodWitnessContent)).lines ∧
    descLookup (extractRecords dupContent) "Sun" = some fiftyFiveWords ∧
    ("✅ " ++ padRight "Sun" 10 ++ " -  55 words (PASS)") ∈
      (run dupContent (WitnessFS.found goodWitnessContent)).lines ∧
    ("✅ " ++ padRight "Sun" 10 ++ " -  60 words (PASS)") ∉
      (run dupContent (WitnessFS.found goodWitnessContent)).lines := by
  have hrec := extractRecords_dupContent
  refine ⟨by rw [hrec]; decide, by rw [hrec]; decide, ?_, ?_, by rw [hrec]; decide, ?_, ?_⟩
  · simp only [run, hrec]
    exact List.mem_append_left _ (List.mem_append_left _ (List.mem_append_left _ (by decide)))
  · simp only [run, hrec]
    exact List.mem_append_right _ (by decide)
  · simp only [run, hrec]
    exact List.mem_append_left _ (List.mem_append_left _ (List.mem_append_left _ (by decide)))
  · intro hmem
    simp only [run, hrec] at hmem
    rcases List.mem_append.mp hmem with h | h
    · rcases List.mem_append.mp h with h | h
      · rcases List.mem_append.mp h with h | h
        · exact absurd h (by decide)
        · rw [countLines] at h
          simp only [List.mem_cons, List.mem_singleton, List.not_mem_nil, or_false] at h
          rcases h with h | h | h | h | h | h
          · exact absurd h (by decide)
          · exact absurd h.symm (chain2_ne _ _ _ _ 1 (by decide) (by decide))
          · exact absurd h.symm (chain2_ne _ _ _ _ 1 (by decide) (by decide))
          · exact absurd h.symm (chain2_ne _ _ _ _ 1 (by decide) (by decide))
          · exact absurd h.symm (chain2_ne _ _ _ _ 1 (by decide) (by decide))
          · exact absurd h (by decide)
      · exact absurd h (by decide)
    · exact absurd h (by decide)

/-- Claim C10: only absence of the witness file is handled; any other
witness read error propagates out of the run, which then never prints a
verdict line. -/
theorem only_file_not_found_handled :
    (∀ content : Chars, (run content WitnessFS.missing).err = none) ∧
    (∀ (content : Chars) (e : String),
      (run content (WitnessFS.readError e)).err = some (PyError.other e) ∧
      "✅ ALL VALIDATION CHECKS PASSED" ∉ (run content (WitnessFS.readError e)).lines ∧
      "❌ VALIDATION FAILED - See errors above" ∉ (run content (WitnessFS.readError e)).lines) := by
  refine ⟨fun content => rfl, fun content e => ⟨rfl, ?_, ?_⟩⟩
  · exact pre_lines_ne_verdict (extractRecords content) content _ (Or.inl rfl)
  · exact pre_lines_ne_verdict (extractRecords content) content _ (Or.inr rfl)

-- ===== extraction stepping machinery =====

theorem only_file_not_found_handled_witness :
    (run [] WitnessFS.missing).err = none ∧
    (run [] (WitnessFS.readError "boom")).err = some (PyError.other "boom") :=
  ⟨only_file_not_found_handled.1 [], (only_file_not_found_handled.2 [] "boom").1⟩

end ValidateAgent35
